import Mathlib

/-!
# Landing page API worker

A shallow embedding of `backend/src/index.js`: the CORS origin resolver
`resolveOrigin`, the response helpers `jsonResponse` and `handleCORS`, the
status handler `handleGetStatus` and the worker entry point `fetch`.

JavaScript strings are Lean strings; `null` and `undefined` values of the
environment and of request headers are `none`.
-/

namespace LandingPage

/-! ## Strings -/

/-- JavaScript `s.startsWith(p)`. -/
def startsWith (s p : String) : Bool := p.data.isPrefixOf s.data

/-- JavaScript `s.endsWith(p)`. -/
def endsWith (s p : String) : Bool := p.data.isSuffixOf s.data

/-- JavaScript `s.slice(n)` for a non-negative `n`. -/
def slice (s : String) (n : Nat) : String := String.mk (s.data.drop n)

/-- JavaScript truthiness of a possibly absent string: `null`, `undefined`
and the empty string are falsy. -/
def truthyStr : Option String → Bool
  | none => false
  | some s => s != ""

/-! ## Origin resolver -/

/-- The function `resolveOrigin(allowedPattern, requestOrigin)`.
`hostname s` is the `hostname` of `new URL(s)`, or `none` when the
constructor throws. -/
def resolveOrigin (hostname : String → Option String)
    (allowedPattern requestOrigin : Option String) : String :=
  match allowedPattern with
  | none => "*"
  | some pattern =>
    if pattern = "" ∨ pattern = "*" then "*"
    else
      match requestOrigin with
      | none => pattern
      | some origin =>
        if origin = "" then pattern
        else if startsWith pattern "*." then
          let baseDomain := slice pattern 2
          match hostname origin with
          | some host =>
            if host = baseDomain ∨ endsWith host ("." ++ baseDomain) = true then origin
            else ""
          | none => ""
        else if origin = pattern then pattern else ""

/-- A small URL reader for origins written `scheme://host`, optionally
followed by a port, path, query or fragment; used to evaluate the
resolver on concrete origins. -/
def originHostname (s : String) : Option String :=
  let rest : Option (List Char) :=
    if "https://".data.isPrefixOf s.data then some (s.data.drop 8)
    else if "http://".data.isPrefixOf s.data then some (s.data.drop 7)
    else none
  match rest with
  | none => none
  | some cs =>
    let host := cs.takeWhile (fun c => c != '/' && c != ':' && c != '?' && c != '#')
    if host = [] then none else some (String.mk host)

/-! ## Numbers

A JavaScript number is an IEEE 754 double. A finite double is represented
by its exact rational value; every operation rounds its exact result to
the nearest double, ties to even, and overflows to an infinity. Negative
zero is identified with zero, as `JSON.stringify` does. -/

/-- A JavaScript number: a finite value, `NaN`, or an infinity
(`inf true` is `-Infinity`). -/
inductive JsNum where
  | fin (q : ℚ)
  | nan
  | inf (negative : Bool)
  deriving DecidableEq

/-- The number of halvings that bring `n` below 2, at most `fuel`. -/
def log2Fuel : Nat → Nat → Nat
  | 0, _ => 0
  | fuel + 1, n => if n < 2 then 0 else log2Fuel fuel (n / 2) + 1

/-- The integer part of the base-2 logarithm of a positive `n`. -/
def log2 (n : Nat) : Nat := log2Fuel n n

/-- The integer part of the base-2 logarithm of `n / d`, for positive `n`
and `d`. -/
def log2Floor (n d : Nat) : Int :=
  let e0 : Int := (log2 n : Int) - (log2 d : Int)
  if 0 ≤ e0 then (if d * 2 ^ e0.toNat ≤ n then e0 else e0 - 1)
  else (if d ≤ n * 2 ^ (-e0).toNat then e0 else e0 - 1)

/-- The integer nearest to `n / d`, ties to even. -/
def roundHalfEven (n d : Nat) : Nat :=
  let fl := n / d
  let rem := n % d
  if 2 * rem < d then fl
  else if d < 2 * rem then fl + 1
  else if fl % 2 = 0 then fl else fl + 1

/-- The double nearest to the rational `q` (binary64: 53 significant bits,
least exponent -1022, subnormals, overflow from `2 ^ 1024`). -/
def JsNum.ofRat (q : ℚ) : JsNum :=
  if q = 0 then .fin 0
  else
    let n := q.num.natAbs
    let d := q.den
    let p : Int := max (log2Floor n d) (-1022) - 52
    let m : Nat :=
      if 0 ≤ p then roundHalfEven n (d * 2 ^ p.toNat) else roundHalfEven (n * 2 ^ (-p).toNat) d
    let v : ℚ := if 0 ≤ p then ((m * 2 ^ p.toNat : Nat) : ℚ) else mkRat m (2 ^ (-p).toNat)
    if (2 : ℚ) ^ 1024 ≤ v then .inf (decide (q < 0))
    else .fin (if q < 0 then -v else v)

/-- JavaScript `a + b` on numbers. -/
def JsNum.add : JsNum → JsNum → JsNum
  | .fin a, .fin b => JsNum.ofRat (a + b)
  | .nan, _ => .nan
  | _, .nan => .nan
  | .inf s, .inf t => if s = t then .inf s else .nan
  | .inf s, .fin _ => .inf s
  | .fin _, .inf s => .inf s

/-- JavaScript `a / n` for a number `a` and an array length `n`. -/
def JsNum.divNat : JsNum → Nat → JsNum
  | .fin q, n =>
    if n = 0 then (if q = 0 then .nan else .inf (decide (q < 0)))
    else JsNum.ofRat (q / (n : ℚ))
  | .nan, _ => .nan
  | .inf s, _ => .inf s

/-! ## JSON values and the JavaScript operations applied to them -/

/-- A parsed JSON value. `num q` is a number written with the exact value
`q`; as a JavaScript value it is the double `JsNum.ofRat q`. An object
lists its own properties in the order `Object.values` enumerates them. -/
inductive Json where
  | null
  | bool (b : Bool)
  | num (q : ℚ)
  | str (s : String)
  | arr (xs : List Json)
  | obj (kvs : List (String × Json))

/-- An error value thrown by the runtime or by a rejected promise. -/
abbrev Err := String

/-- The error thrown when a property of `null` is read. -/
def typeError : Err := "TypeError: Cannot read properties of null"

/-- JavaScript truthiness of a value (`none` is `undefined`). -/
def truthy : Option Json → Bool
  | none => false
  | some .null => false
  | some (.bool b) => b
  | some (.num q) => decide (JsNum.ofRat q ≠ JsNum.fin 0)
  | some (.str s) => s != ""
  | some (.arr _) => true
  | some (.obj _) => true

/-- Property read `v.name` on a non-null value, for the property names the
handler reads (`monitors`, `locations`, `uptime`, `resolve_address_info`,
`City`, `Country`, `response_time`): only objects carry them. -/
def getProp (v : Json) (name : String) : Option Json :=
  match v with
  | .obj kvs => kvs.lookup name
  | _ => none

/-- Indexed read `v[0]` on a non-null value. -/
def index0 (v : Json) : Option Json :=
  match v with
  | .arr xs => xs.head?
  | .obj kvs => kvs.lookup "0"
  | .str s => s.data.head?.map (fun c => Json.str (String.singleton c))
  | _ => none

/-- The expression `data.monitors?.[0]`: reading `monitors` throws when
`data` is `null`; a `null` or missing `monitors` gives `undefined`. -/
def firstMonitor (data : Json) : Except Err (Option Json) :=
  match data with
  | .null => .error typeError
  | _ =>
    match getProp data "monitors" with
    | none => .ok none
    | some .null => .ok none
    | some monitors => .ok (index0 monitors)

/-- The expression `v?.name` on an already evaluated `v`. -/
def optProp (v : Option Json) (name : String) : Option Json :=
  match v with
  | none => none
  | some .null => none
  | some w => getProp w name

/-- JavaScript `Object.values(v)` on a truthy value. -/
def objectValues (v : Json) : List Json :=
  match v with
  | .obj kvs => kvs.map Prod.snd
  | .arr xs => xs
  | .str s => s.data.map (fun c => Json.str (String.singleton c))
  | _ => []

/-- The value handed to `JSON.stringify` to make a response body. -/
inductive Payload where
  | message (text : String)
  | status (uptime : Option Json) (average_response_time : JsNum) (location : String)

/-- Conversions of the JavaScript runtime that the worker calls but does
not define. -/
structure Runtime where
  /-- The `hostname` of `new URL(s)`, `none` when the constructor throws. -/
  hostname : String → Option String
  /-- The function `encodeURIComponent`. -/
  encodeURIComponent : String → String
  /-- The normalised `url` of `new Request(s)`. -/
  requestUrl : String → String
  /-- String conversion of a value that is not itself a string. -/
  toStr : Option Json → String
  /-- String conversion of a number. -/
  numToStr : JsNum → String
  /-- Number conversion of a string. -/
  strToNum : String → JsNum
  /-- The function `JSON.stringify` on the objects the worker serialises. -/
  stringify : Payload → String

/-- String conversion `String(v)`, as done by a template literal and by
`+` with a string operand. -/
def jsToString (rt : Runtime) (v : Option Json) : String :=
  match v with
  | some (.str s) => s
  | _ => rt.toStr v

/-- The value of the accumulator of the `reduce` call: a number, or a
string once `+` has concatenated. -/
inductive Acc where
  | num (n : JsNum)
  | str (s : String)

/-- JavaScript `sum + x` where `x` is a JSON value or `undefined`. -/
def jsAdd (rt : Runtime) (sum : Acc) (x : Option Json) : Acc :=
  match sum, x with
  | .num a, none => .num (a.add .nan)
  | .num a, some .null => .num (a.add (.fin 0))
  | .num a, some (.bool b) => .num (a.add (.fin (if b then 1 else 0)))
  | .num a, some (.num q) => .num (a.add (JsNum.ofRat q))
  | .num a, some (.str s) => .str (rt.numToStr a ++ s)
  | .num a, some v => .str (rt.numToStr a ++ rt.toStr (some v))
  | .str s, v => .str (s ++ jsToString rt v)

/-- JavaScript `total / n` where `n` is an array length. -/
def jsDiv (rt : Runtime) (total : Acc) (n : Nat) : JsNum :=
  match total with
  | .num a => a.divNat n
  | .str s => (rt.strToNum s).divNat n

/-- The call `locations.reduce((sum, loc) => sum + loc.response_time, sum)`;
reading `response_time` throws when `loc` is `null`. -/
def sumResponseTimes (rt : Runtime) (sum : Acc) : List Json → Except Err Acc
  | [] => .ok sum
  | .null :: _ => .error typeError
  | loc :: rest => sumResponseTimes rt (jsAdd rt sum (getProp loc "response_time")) rest

/-! ## Responses, cache and environment -/

/-- A constructed `Response`: status, body text (`none` for a null body)
and headers. -/
structure Response where
  status : Nat
  body : Option String
  headers : List (String × String)
  deriving DecidableEq

/-- The value of header `name`, if set. -/
def Response.header (r : Response) (name : String) : Option String :=
  r.headers.lookup name

/-- The RangeError of the `Response` constructor. -/
def rangeError : Err := "RangeError: the status must be in the range 200 to 599"

/-- The TypeError of the `Response` constructor. -/
def nullBodyError : Err := "TypeError: a response with a null body status cannot have a body"

/-- The constructor `new Response(body, { status, headers })`. It throws a
RangeError for a status outside 200..599 and a TypeError when a body is
given with a null body status (204, 205, 304; 101 and 103 are already out
of range). Header names and values are taken to be valid. -/
def newResponse (body : Option String) (status : Nat) (headers : List (String × String)) :
    Except Err Response :=
  if status < 200 ∨ 599 < status then .error rangeError
  else if body.isSome = true ∧ (status = 204 ∨ status = 205 ∨ status = 304) then
    .error nullBodyError
  else .ok { status := status, body := body, headers := headers }

/-- The edge cache `caches.default`, as the entry visible under each key. -/
abbrev Cache := String → Option Response

/-- The cache after a successful `cache.put(key, stored)`. -/
def Cache.put (c : Cache) (key : String) (stored : Response) : Cache :=
  fun k => if k = key then some stored else c k

/-- The environment bindings of the worker. -/
structure Env where
  HT_API_SERVER : Option String
  HT_API_KEY : Option String
  ALLOWED_ORIGIN : Option String

/-- What the upstream API answered: the status and what `response.json()`
resolves to or rejects with. -/
structure Upstream where
  status : Nat
  json : Except Err Json

/-- The flag `response.ok`. -/
def Upstream.ok (r : Upstream) : Bool := decide (200 ≤ r.status) && decide (r.status ≤ 299)

/-- The behaviour of the outside world during one request: the outcome of
`fetch(url, authorization)` and whether `cache.put` rejects (in which case
nothing is stored). -/
structure World where
  fetch : String → String → Except Err Upstream
  putError : String → Response → Option Err

/-- An effect performed by the handler. -/
inductive Event where
  | cacheMatch (key : String)
  | upstreamFetch (url : String) (authorization : String)
  | readJson
  | cachePut (key : String) (stored : Response)
  | consoleError (error : Err)

/-- The result of running a piece of the worker: the response returned,
or the exception thrown in its place; the cache afterwards; and the
effects performed, in order. -/
structure Outcome where
  response : Except Err Response
  cache : Cache
  trace : List Event

def CACHE_TTL_SECONDS : Nat := 60

/-- The headers set by `jsonResponse`. -/
def jsonHeaders (allowedOrigin : String) : List (String × String) :=
  [("Content-Type", "application/json"),
   ("Access-Control-Allow-Origin", allowedOrigin),
   ("Access-Control-Allow-Methods", "GET, OPTIONS"),
   ("Access-Control-Allow-Headers", "Content-Type")]

/-- The helper `jsonResponse(data, status, allowedOrigin)`. -/
def jsonResponse (rt : Runtime) (data : Payload) (status : Nat) (allowedOrigin : String) :
    Except Err Response :=
  newResponse (some (rt.stringify data)) status (jsonHeaders allowedOrigin)

/-- The helper `handleCORS(allowedOrigin)`. -/
def handleCORS (allowedOrigin : String) : Except Err Response :=
  newResponse none 204
    [("Access-Control-Allow-Origin", allowedOrigin),
     ("Access-Control-Allow-Methods", "GET, OPTIONS"),
     ("Access-Control-Allow-Headers", "Content-Type"),
     ("Access-Control-Max-Age", "86400")]

/-- Headers of the status endpoint's own 200 responses. -/
def statusHeaders (allowedOrigin xCache : String) : List (String × String) :=
  [("Content-Type", "application/json"),
   ("Access-Control-Allow-Origin", allowedOrigin),
   ("Access-Control-Allow-Methods", "GET, OPTIONS"),
   ("Access-Control-Allow-Headers", "Content-Type"),
   ("X-Cache", xCache)]

/-- The headers of the response handed to `cache.put`. -/
def cacheHeaders : List (String × String) :=
  [("Content-Type", "application/json"),
   ("Cache-Control", "s-maxage=" ++ toString CACHE_TTL_SECONDS)]

/-- The response `cacheableResponse` that the constructor yields for the
body `jsonBody`. -/
def cacheableResponse (jsonBody : String) : Response :=
  { status := 200, body := some jsonBody, headers := cacheHeaders }

def missingMonitorMessage : String :=
  "Parameter \"monitor\" wajib diisi. Contoh: /api/get-status?monitor=MONITOR_ID"

def missingKeyMessage : String :=
  "HT_API_KEY belum dikonfigurasi. Jalankan: npx wrangler secret put HT_API_KEY"

def notFoundMessage : String := "Data monitor atau lokasi tidak ditemukan."

def failureMessage : String := "Gagal mengambil data dari HetrixTools API"

/-- The template literal value of a possibly undefined string. -/
def templ : Option String → String
  | none => "undefined"
  | some s => s

/-- The cache key URL built from the monitor id. -/
def cacheKeyOf (rt : Runtime) (monitorId : String) : String :=
  rt.requestUrl ("https://cache-internal/status/" ++ monitorId)

/-! ## The status handler -/

/-- The request URL `${apiServer}/uptime-monitors?id=${encodeURIComponent(monitorId)}`. -/
def apiUrlOf (rt : Runtime) (env : Env) (monitorId : String) : String :=
  templ env.HT_API_SERVER ++ "/uptime-monitors?id=" ++ rt.encodeURIComponent monitorId

/-- The `Authorization` header sent upstream. -/
def authorizationOf (env : Env) : String := "Bearer " ++ templ env.HT_API_KEY

/-- The value of `serverLocation` computed from the monitor record. -/
def serverLocationOf (rt : Runtime) (monitor : Json) : String :=
  let city := optProp (getProp monitor "resolve_address_info") "City"
  let country := optProp (getProp monitor "resolve_address_info") "Country"
  if truthy city && truthy country then
    jsToString rt city ++ ", " ++ jsToString rt country
  else "Lokasi tidak diketahui"

/-- The filtering of the parsed upstream body `data`: `error` when an
exception is thrown, `ok none` when the `else` branch (not found) is
taken, `ok (some filteredData)` otherwise. -/
def filterMonitor (rt : Runtime) (data : Json) : Except Err (Option Payload) :=
  match firstMonitor data with
  | .error e => .error e
  | .ok none => .ok none
  | .ok (some monitor) =>
    if truthy (some monitor) && truthy (getProp monitor "locations") then
      let uptime := getProp monitor "uptime"
      let serverLocation := serverLocationOf rt monitor
      let locations :=
        match getProp monitor "locations" with
        | some l => objectValues l
        | none => []
      match sumResponseTimes rt (.num (.fin 0)) locations with
      | .error e => .error e
      | .ok totalResponseTime =>
        let averageResponseTime :=
          if locations.length > 0 then jsDiv rt totalResponseTime locations.length
          else JsNum.fin 0
        .ok (some (.status uptime averageResponseTime serverLocation))
    else .ok none

/-- The body of the `try` block of `handleGetStatus`, entered after a
cache miss. The `response` of the result is `error e` when `e` is thrown
inside the block (by the fetch, by `response.json()`, by the filtering,
by a `Response` constructor or by `cache.put`). -/
def tryGetStatus (rt : Runtime) (w : World) (cache : Cache) (monitorId cacheKey : String)
    (env : Env) (allowedOrigin : String) : Outcome :=
  let t0 := [Event.cacheMatch cacheKey]
  if truthyStr env.HT_API_KEY = false then
    ⟨jsonResponse rt (.message missingKeyMessage) 500 allowedOrigin, cache, t0⟩
  else
    let apiUrl := apiUrlOf rt env monitorId
    let t1 := t0 ++ [Event.upstreamFetch apiUrl (authorizationOf env)]
    match w.fetch apiUrl (authorizationOf env) with
    | .error e => ⟨.error e, cache, t1⟩
    | .ok response =>
      if response.ok = false then
        ⟨jsonResponse rt (.message ("HetrixTools API error: " ++ toString response.status))
           (if response.status ≥ 500 then 502 else response.status) allowedOrigin, cache, t1⟩
      else
        let t2 := t1 ++ [Event.readJson]
        match response.json with
        | .error e => ⟨.error e, cache, t2⟩
        | .ok data =>
          match filterMonitor rt data with
          | .error e => ⟨.error e, cache, t2⟩
          | .ok none =>
            ⟨jsonResponse rt (.message notFoundMessage) 404 allowedOrigin, cache, t2⟩
          | .ok (some filteredData) =>
            let jsonBody := rt.stringify filteredData
            match newResponse (some jsonBody) 200 cacheHeaders with
            | .error e => ⟨.error e, cache, t2⟩
            | .ok stored =>
              let t3 := t2 ++ [Event.cachePut cacheKey stored]
              match w.putError cacheKey stored with
              | some e => ⟨.error e, cache, t3⟩
              | none =>
                ⟨newResponse (some jsonBody) 200 (statusHeaders allowedOrigin "MISS"),
                 cache.put cacheKey stored, t3⟩

/-- The `catch` clause of `handleGetStatus` applied to the outcome of the
`try` block: an exception is logged and answered with the failure
response. -/
def catchFailure (rt : Runtime) (allowedOrigin : String) (attempt : Outcome) : Outcome :=
  match attempt.response with
  | .ok _ => attempt
  | .error e =>
    ⟨jsonResponse rt (.message failureMessage) 500 allowedOrigin, attempt.cache,
     attempt.trace ++ [Event.consoleError e]⟩

/-- The function `handleGetStatus(url, env, allowedOrigin)`; `monitor` is
the `monitor` query parameter of `url`, `none` when it is missing. The
`response` of the result is `error e` when the returned promise rejects. -/
def handleGetStatus (rt : Runtime) (w : World) (cache : Cache) (monitor : Option String)
    (env : Env) (allowedOrigin : String) : Outcome :=
  if truthyStr monitor = false then
    ⟨jsonResponse rt (.message missingMonitorMessage) 400 allowedOrigin, cache, []⟩
  else
    let monitorId := templ monitor
    let cacheKey := cacheKeyOf rt monitorId
    match cache cacheKey with
    | some cachedResponse =>
      ⟨newResponse (some (cachedResponse.body.getD "")) cachedResponse.status
         (statusHeaders allowedOrigin "HIT"),
       cache, [Event.cacheMatch cacheKey]⟩
    | none =>
      catchFailure rt allowedOrigin
        (tryGetStatus rt w cache monitorId cacheKey env allowedOrigin)

/-- An incoming request: method, `Origin` header, path and `monitor`
query parameter of its URL. -/
structure Request where
  method : String
  origin : Option String
  pathname : String
  monitor : Option String

/-- The worker entry point `fetch(request, env)`. -/
def fetch (rt : Runtime) (w : World) (cache : Cache) (request : Request) (env : Env) : Outcome :=
  let requestOrigin := request.origin
  let allowedOrigin := resolveOrigin rt.hostname env.ALLOWED_ORIGIN requestOrigin
  if request.method = "OPTIONS" then ⟨handleCORS allowedOrigin, cache, []⟩
  else if request.pathname = "/api/get-status" then
    handleGetStatus rt w cache request.monitor env allowedOrigin
  else ⟨jsonResponse rt (.message "Not Found") 404 allowedOrigin, cache, []⟩

/-- Cache contents that can arise: the empty cache, the cache left by a
handled request, and eviction of an entry by the cache itself. -/
inductive Reachable (rt : Runtime) : Cache → Prop where
  | empty : Reachable rt (fun _ => none)
  | request (w : World) (c : Cache) (req : Request) (env : Env) :
      Reachable rt c → Reachable rt (fetch rt w c req env).cache
  | evict (c : Cache) (key : String) :
      Reachable rt c → Reachable rt (fun k => if k = key then none else c k)

/-! ## Notions of the specification -/

/-- The first monitor record of a parsed body, in the words of the
specification: the first element of its `monitors`, absent when there is
none. -/
def firstRecord (data : Json) : Option Json :=
  match getProp data "monitors" with
  | none => none
  | some monitors => index0 monitors

/-- The numeric `response_time` field of a location value, when it has
one: the exact value written in the body. -/
def responseTimeOf (v : Json) : Option ℚ :=
  match getProp v "response_time" with
  | some (.num q) => some q
  | _ => none

/-- The sum of response times in double arithmetic: starting from 0, each
value is added in turn and every addition is rounded. -/
def doubleSum (rts : List ℚ) : JsNum :=
  rts.foldl (fun sum q => sum.add (JsNum.ofRat q)) (JsNum.fin 0)

/-! ## Concrete runtime, worlds and bodies, used to evaluate the handler -/

/-- A plain rendering of a number: an integer in decimal, another finite
value as a fraction, `null` for `NaN` and the infinities. -/
def sampleNumText : JsNum → String
  | .fin q => if q.den = 1 then toString q.num else toString q.num ++ "/" ++ toString q.den
  | _ => "null"

/-- A runtime with simple conversions. -/
def sampleRuntime : Runtime where
  hostname := originHostname
  encodeURIComponent := fun s => s
  requestUrl := fun s => s
  toStr := fun _ => "[object]"
  numToStr := fun _ => "0"
  strToNum := fun _ => JsNum.nan
  stringify := fun p =>
    match p with
    | .message text => "message: " ++ text
    | .status _ average location =>
      "average_response_time: " ++ sampleNumText average ++ ", location: " ++ location

/-- The cache with no entries. -/
def emptyCache : Cache := fun _ => none

/-- An environment with server, key and allowed origin configured. -/
def sampleEnv : Env where
  HT_API_SERVER := some "https://api.example"
  HT_API_KEY := some "secret"
  ALLOWED_ORIGIN := some "*"

/-- A world in which every upstream fetch has the given outcome and
`cache.put` succeeds. -/
def worldOf (r : Except Err Upstream) : World where
  fetch := fun _ _ => r
  putError := fun _ _ => none

/-- A world in which the upstream answers with `r` and `cache.put` rejects. -/
def worldPutFails (r : Upstream) (e : Err) : World where
  fetch := fun _ _ => .ok r
  putError := fun _ _ => some e

/-- A monitor record whose two locations report response times 100 and 200. -/
def sampleMonitor : Json :=
  .obj
    [("uptime", .num 99),
     ("locations", .obj
        [("a", .obj [("response_time", .num 100)]),
         ("b", .obj [("response_time", .num 200)])])]

/-- A parsed upstream body with the one monitor `sampleMonitor`. -/
def sampleData : Json := .obj [("monitors", .arr [sampleMonitor])]

/-- A monitor record whose second location has no `response_time`. -/
def partialMonitor : Json :=
  .obj
    [("uptime", .num 99),
     ("locations", .obj
        [("a", .obj [("response_time", .num 100)]),
         ("b", .obj [])])]

/-- A parsed upstream body with the one monitor `partialMonitor`. -/
def partialData : Json := .obj [("monitors", .arr [partialMonitor])]

/-- A monitor record whose two locations report response times 0.1 and
0.2. -/
def fractionMonitor : Json :=
  .obj
    [("locations", .obj
        [("a", .obj [("response_time", .num (1 / 10))]),
         ("b", .obj [("response_time", .num (2 / 10))])])]

/-- A parsed upstream body with the one monitor `fractionMonitor`. -/
def fractionData : Json := .obj [("monitors", .arr [fractionMonitor])]

/-- The cache left by a first request for monitor `m1` answered upstream
with `sampleData`. -/
def warmCache : Cache :=
  (fetch sampleRuntime (worldOf (.ok ⟨200, .ok sampleData⟩)) emptyCache
    ⟨"GET", none, "/api/get-status", some "m1"⟩ sampleEnv).cache

/-! ## Facts about the string operations -/

theorem endsWith_iff (s p : String) : endsWith s p = true ↔ ∃ pre : String, s = pre ++ p := by
  unfold endsWith
  rw [List.isSuffixOf_iff_suffix]
  constructor
  · rintro ⟨t, ht⟩
    refine ⟨String.mk t, ?_⟩
    apply String.ext
    simp [ht]
  · rintro ⟨pre, rfl⟩
    exact ⟨pre.data, by simp⟩

theorem startsWith_wildcard (base : String) : startsWith ("*." ++ base) "*." = true := by
  simp [startsWith, List.isPrefixOf]

theorem slice_wildcard (base : String) : slice ("*." ++ base) 2 = base := by
  unfold slice
  apply String.ext
  simp

theorem wildcard_ne_empty (base : String) : "*." ++ base ≠ "" := by
  intro h
  have h2 : "*.".length = 2 := rfl
  have := congrArg String.length h
  rw [String.length_append, h2] at this
  simp at this

theorem wildcard_ne_star (base : String) : "*." ++ base ≠ "*" := by
  intro h
  have h2 : "*.".length = 2 := rfl
  have h1 : "*".length = 1 := rfl
  have := congrArg String.length h
  rw [String.length_append, h2, h1] at this
  omega

/-! ## Origin resolver -/

/-- The resolver on the four origins the specification lists for the
pattern `*.example.com`. -/
theorem resolveOrigin_examples :
    resolveOrigin originHostname (some "*.example.com") (some "https://a.example.com")
        = "https://a.example.com" ∧
    resolveOrigin originHostname (some "*.example.com") (some "https://example.com")
        = "https://example.com" ∧
    resolveOrigin originHostname (some "*.example.com") (some "https://evil.com") = "" ∧
    resolveOrigin originHostname (some "*.example.com") (some "https://notexample.com") = "" := by
  decide

/-- An empty `Origin` header is treated like an absent one: the pattern is
returned verbatim. -/
theorem resolveOrigin_empty_origin (hostname : String → Option String) (pattern : String)
    (hne : pattern ≠ "") (hstar : pattern ≠ "*") :
    resolveOrigin hostname (some pattern) (some "") = pattern ∧
    resolveOrigin hostname (some pattern) none = pattern := by
  simp [resolveOrigin, hne, hstar]

/-- C1: for a pattern `*.` + base and a non-empty request origin, the
resolver returns the origin unchanged when it parses to a hostname equal
to base or ending in `.` + base, the empty string when it parses to any
other hostname, and the empty string when it does not parse. -/
theorem resolveOrigin_wildcard (hostname : String → Option String) (base origin : String)
    (hpresent : origin ≠ "") :
    (∀ h, hostname origin = some h → (h = base ∨ ∃ pre : String, h = pre ++ ("." ++ base)) →
        resolveOrigin hostname (some ("*." ++ base)) (some origin) = origin) ∧
    (∀ h, hostname origin = some h → ¬ (h = base ∨ ∃ pre : String, h = pre ++ ("." ++ base)) →
        resolveOrigin hostname (some ("*." ++ base)) (some origin) = "") ∧
    (hostname origin = none →
        resolveOrigin hostname (some ("*." ++ base)) (some origin) = "") := by
  have hne := wildcard_ne_empty base
  have hstar := wildcard_ne_star base
  refine ⟨?_, ?_, ?_⟩
  · intro h hh hmatch
    rw [← endsWith_iff] at hmatch
    simp [resolveOrigin, hne, hstar, hpresent, startsWith_wildcard, slice_wildcard, hh, hmatch]
  · intro h hh hmatch
    rw [← endsWith_iff] at hmatch
    simp [resolveOrigin, hne, hstar, hpresent, startsWith_wildcard, slice_wildcard, hh, hmatch]
  · intro hh
    simp [resolveOrigin, hne, hstar, hpresent, startsWith_wildcard, slice_wildcard, hh]

theorem resolveOrigin_wildcard_witness :
    "https://a.example.com" ≠ "" ∧
    resolveOrigin originHostname (some ("*." ++ "example.com")) (some "https://a.example.com")
      = "https://a.example.com" :=
  ⟨by decide,
   (resolveOrigin_wildcard originHostname "example.com" "https://a.example.com" (by decide)).1
     "a.example.com" (by decide) (Or.inr ⟨"a", by decide⟩)⟩

/-- C2: for a pattern that is non-empty, is not `*` and does not start
with `*.`, and a non-empty request origin, the resolver returns the
pattern when the origin equals it and the empty string otherwise. -/
theorem resolveOrigin_exact (hostname : String → Option String) (pattern origin : String)
    (hne : pattern ≠ "") (hstar : pattern ≠ "*") (hwild : startsWith pattern "*." = false)
    (hpresent : origin ≠ "") :
    resolveOrigin hostname (some pattern) (some origin) = if origin = pattern then pattern else "" := by
  simp [resolveOrigin, hne, hstar, hpresent, hwild]

theorem resolveOrigin_exact_witness :
    resolveOrigin originHostname (some "https://site.com") (some "https://site.com")
      = "https://site.com" ∧
    resolveOrigin originHostname (some "https://site.com") (some "https://other.com") = "" :=
  ⟨resolveOrigin_exact originHostname "https://site.com" "https://site.com"
     (by decide) (by decide) (by decide) (by decide),
   resolveOrigin_exact originHostname "https://site.com" "https://other.com"
     (by decide) (by decide) (by decide) (by decide)⟩

/-- C3: for a pattern that is unset, empty or `*`, the resolver returns
`*` for every request origin, absent or present, well-formed or not. -/
theorem resolveOrigin_star (hostname : String → Option String)
    (allowedPattern requestOrigin : Option String)
    (h : allowedPattern = none ∨ allowedPattern = some "" ∨ allowedPattern = some "*") :
    resolveOrigin hostname allowedPattern requestOrigin = "*" := by
  rcases h with h | h | h <;> simp [resolveOrigin, h]

theorem resolveOrigin_star_witness :
    resolveOrigin originHostname (some "*") (some "::not a url") = "*" ∧
    resolveOrigin originHostname (some "") none = "*" :=
  ⟨resolveOrigin_star originHostname (some "*") (some "::not a url") (Or.inr (Or.inr rfl)),
   resolveOrigin_star originHostname (some "") none (Or.inr (Or.inl rfl))⟩

/-! ## Double arithmetic -/

/-- The rounding on known values: 0.1 is not representable, a tie goes to
the even neighbour, the least subnormal is reached, and 1e308 + 1e308
overflows. -/
theorem ofRat_examples :
    JsNum.ofRat (1 / 10) = JsNum.fin (3602879701896397 / 36028797018963968) ∧
    JsNum.ofRat (9007199254740993 : ℚ) = JsNum.fin 9007199254740992 ∧
    JsNum.ofRat (mkRat 5 (10 ^ 324)) = JsNum.fin (mkRat 1 (2 ^ 1074)) ∧
    (JsNum.ofRat ((10 ^ 308 : Nat) : ℚ)).add (JsNum.ofRat ((10 ^ 308 : Nat) : ℚ))
      = JsNum.inf false := by
  decide!

/-! ## Status handler -/

theorem newResponse_ok (body : Option String) (status : Nat) (headers : List (String × String))
    (hlo : 200 ≤ status) (hhi : status ≤ 599)
    (hnull : status ≠ 204 ∧ status ≠ 205 ∧ status ≠ 304) :
    newResponse body status headers = .ok ⟨status, body, headers⟩ := by
  unfold newResponse
  have h1 : ¬ (status < 200 ∨ 599 < status) := by omega
  have h2 : ¬ (body.isSome = true ∧ (status = 204 ∨ status = 205 ∨ status = 304)) := by
    rintro ⟨_, h | h | h⟩
    · exact hnull.1 h
    · exact hnull.2.1 h
    · exact hnull.2.2 h
  simp only [h1, h2, if_false]

theorem jsonResponse_ok (rt : Runtime) (data : Payload) (status : Nat) (allowedOrigin : String)
    (hlo : 200 ≤ status) (hhi : status ≤ 599)
    (hnull : status ≠ 204 ∧ status ≠ 205 ∧ status ≠ 304) :
    jsonResponse rt data status allowedOrigin =
      .ok ⟨status, some (rt.stringify data), jsonHeaders allowedOrigin⟩ :=
  newResponse_ok _ _ _ hlo hhi hnull

theorem jsonResponse_failure (rt : Runtime) (allowedOrigin : String) :
    jsonResponse rt (.message failureMessage) 500 allowedOrigin =
      .ok ⟨500, some (rt.stringify (.message failureMessage)), jsonHeaders allowedOrigin⟩ :=
  jsonResponse_ok rt _ 500 allowedOrigin (by decide) (by decide) (by decide)

theorem handleGetStatus_miss (rt : Runtime) (w : World) (cache : Cache) (monitorId : String)
    (env : Env) (allowedOrigin : String) (hid : monitorId ≠ "")
    (hmiss : cache (cacheKeyOf rt monitorId) = none) :
    handleGetStatus rt w cache (some monitorId) env allowedOrigin =
      catchFailure rt allowedOrigin
        (tryGetStatus rt w cache monitorId (cacheKeyOf rt monitorId) env allowedOrigin) := by
  simp [handleGetStatus, truthyStr, templ, hid, hmiss]

theorem tryGetStatus_non2xx (rt : Runtime) (w : World) (cache : Cache)
    (monitorId cacheKey : String) (env : Env) (allowedOrigin : String) (resp : Upstream)
    (hkey : truthyStr env.HT_API_KEY = true)
    (hfetch : w.fetch (apiUrlOf rt env monitorId) (authorizationOf env) = .ok resp)
    (hok : resp.ok = false) :
    tryGetStatus rt w cache monitorId cacheKey env allowedOrigin =
      ⟨jsonResponse rt (.message ("HetrixTools API error: " ++ toString resp.status))
         (if resp.status ≥ 500 then 502 else resp.status) allowedOrigin, cache,
       [Event.cacheMatch cacheKey] ++
         [Event.upstreamFetch (apiUrlOf rt env monitorId) (authorizationOf env)]⟩ := by
  simp [tryGetStatus, hkey, hfetch, hok]

/-- C4 (amended): on a cache miss with a configured API key, a non-2xx
upstream status `s` is answered with 502 when `s` is 500 or more (every
5xx status), with the failure response 500 when `s` is below 200 or is
304 (no `Response` with a body can carry such a status, so the constructor
throws inside the `try` block), and with `s` itself otherwise. -/
theorem handleGetStatus_upstream_status (rt : Runtime) (w : World) (cache : Cache)
    (monitorId : String) (env : Env) (allowedOrigin : String) (resp : Upstream)
    (hid : monitorId ≠ "") (hmiss : cache (cacheKeyOf rt monitorId) = none)
    (hkey : truthyStr env.HT_API_KEY = true)
    (hfetch : w.fetch (apiUrlOf rt env monitorId) (authorizationOf env) = .ok resp)
    (hnon2xx : resp.status / 100 ≠ 2) :
    ∃ r, (handleGetStatus rt w cache (some monitorId) env allowedOrigin).response = .ok r ∧
      r.status =
        (if 500 ≤ resp.status then 502
         else if resp.status < 200 ∨ resp.status = 304 then 500
         else resp.status) ∧
      (resp.status < 200 ∨ resp.status = 304 →
        r.body = some (rt.stringify (.message failureMessage))) := by
  have hok : resp.ok = false := by
    unfold Upstream.ok
    by_cases h1 : 200 ≤ resp.status <;> by_cases h2 : resp.status ≤ 299 <;> simp [h1, h2]
    omega
  rw [handleGetStatus_miss rt w cache monitorId env allowedOrigin hid hmiss,
    tryGetStatus_non2xx rt w cache monitorId _ env allowedOrigin resp hkey hfetch hok]
  by_cases h5 : 500 ≤ resp.status
  · have hj := jsonResponse_ok rt
      (.message ("HetrixTools API error: " ++ toString resp.status)) 502 allowedOrigin
      (by decide) (by decide) (by decide)
    refine ⟨⟨502, some (rt.stringify
      (.message ("HetrixTools API error: " ++ toString resp.status))), jsonHeaders allowedOrigin⟩,
      ?_, ?_, ?_⟩
    · simp only [catchFailure, h5, ge_iff_le, if_true, hj]
    · simp [h5]
    · intro h; omega
  · by_cases hbad : resp.status < 200 ∨ resp.status = 304
    · have hj : jsonResponse rt
          (.message ("HetrixTools API error: " ++ toString resp.status)) resp.status
          allowedOrigin = .error (if resp.status < 200 then rangeError else nullBodyError) := by
        unfold jsonResponse newResponse
        rcases hbad with h | h
        · simp [h]
        · simp [h]
      refine ⟨⟨500, some (rt.stringify (.message failureMessage)), jsonHeaders allowedOrigin⟩,
        ?_, ?_, ?_⟩
      · simp only [catchFailure, h5, ge_iff_le, if_false, hj, jsonResponse_failure]
      · simp [h5, hbad]
      · intro _; rfl
    · have hj := jsonResponse_ok rt
        (.message ("HetrixTools API error: " ++ toString resp.status)) resp.status allowedOrigin
        (by omega) (by omega) (by omega)
      refine ⟨⟨resp.status, some (rt.stringify
        (.message ("HetrixTools API error: " ++ toString resp.status))),
        jsonHeaders allowedOrigin⟩, ?_, ?_, ?_⟩
      · simp only [catchFailure, h5, ge_iff_le, if_false, hj]
      · simp [h5, hbad]
      · intro h; exact absurd h hbad

theorem handleGetStatus_upstream_status_witness :
    (∃ r, (handleGetStatus sampleRuntime (worldOf (.ok ⟨503, .ok .null⟩)) emptyCache (some "m1")
        sampleEnv "*").response = .ok r ∧ r.status = 502) ∧
    (∃ r, (handleGetStatus sampleRuntime (worldOf (.ok ⟨404, .ok .null⟩)) emptyCache (some "m1")
        sampleEnv "*").response = .ok r ∧ r.status = 404) :=
  ⟨(handleGetStatus_upstream_status sampleRuntime (worldOf (.ok ⟨503, .ok .null⟩)) emptyCache "m1"
      sampleEnv "*" ⟨503, .ok .null⟩ (by decide) rfl rfl rfl (by decide)).imp
      (fun _ h => ⟨h.1, h.2.1⟩),
   (handleGetStatus_upstream_status sampleRuntime (worldOf (.ok ⟨404, .ok .null⟩)) emptyCache "m1"
      sampleEnv "*" ⟨404, .ok .null⟩ (by decide) rfl rfl rfl (by decide)).imp
      (fun _ h => ⟨h.1, h.2.1⟩)⟩

/-- C4 as stated fails: an upstream 304 is not passed through but answered
with 500, and an upstream 600, which is not a 5xx status, is answered
with 502. -/
theorem handleGetStatus_upstream_304 :
    (handleGetStatus sampleRuntime (worldOf (.ok ⟨304, .ok .null⟩)) emptyCache (some "m1")
        sampleEnv "*").response =
      .ok ⟨500, some (sampleRuntime.stringify (.message failureMessage)), jsonHeaders "*"⟩ ∧
    (handleGetStatus sampleRuntime (worldOf (.ok ⟨600, .ok .null⟩)) emptyCache (some "m1")
        sampleEnv "*").response =
      .ok ⟨502, some (sampleRuntime.stringify (.message "HetrixTools API error: 600")),
        jsonHeaders "*"⟩ := by
  constructor <;> rfl

theorem newResponse_cacheable (jsonBody : String) :
    newResponse (some jsonBody) 200 cacheHeaders = .ok (cacheableResponse jsonBody) := rfl

theorem newResponse_miss (jsonBody allowedOrigin : String) :
    newResponse (some jsonBody) 200 (statusHeaders allowedOrigin "MISS") =
      .ok ⟨200, some jsonBody, statusHeaders allowedOrigin "MISS"⟩ := rfl

theorem jsonResponse_not_found (rt : Runtime) (allowedOrigin : String) :
    jsonResponse rt (.message notFoundMessage) 404 allowedOrigin =
      .ok ⟨404, some (rt.stringify (.message notFoundMessage)), jsonHeaders allowedOrigin⟩ := rfl

theorem catchFailure_error (rt : Runtime) (allowedOrigin : String) (e : Err) (cache : Cache)
    (t : List Event) :
    catchFailure rt allowedOrigin ⟨.error e, cache, t⟩ =
      ⟨.ok ⟨500, some (rt.stringify (.message failureMessage)), jsonHeaders allowedOrigin⟩,
       cache, t ++ [Event.consoleError e]⟩ := rfl

theorem firstMonitor_eq_firstRecord (data : Json) (hdata : data ≠ .null) :
    firstMonitor data = .ok (firstRecord data) := by
  cases data with
  | null => exact absurd rfl hdata
  | obj kvs =>
    simp only [firstMonitor, firstRecord]
    cases h : getProp (Json.obj kvs) "monitors" with
    | none => rfl
    | some ms => cases ms <;> rfl
  | bool b => rfl
  | num q => rfl
  | str s => rfl
  | arr xs => rfl

theorem filterMonitor_not_found (rt : Runtime) (data : Json) (hdata : data ≠ .null)
    (habsent : firstRecord data = none ∨
      ∃ m, firstRecord data = some m ∧ getProp m "locations" = none) :
    filterMonitor rt data = .ok none := by
  unfold filterMonitor
  rw [firstMonitor_eq_firstRecord data hdata]
  rcases habsent with h | ⟨m, hm, hl⟩
  · simp [h]
  · simp [hm, hl, truthy]

/-- C7 (amended): on a cache miss with a configured API key and a 2xx
upstream response whose body parses to a value other than `null`, the
handler answers 404 with the not-found message when the first monitor
record is absent, or is present but has no `locations` field. -/
theorem handleGetStatus_not_found (rt : Runtime) (w : World) (cache : Cache)
    (monitorId : String) (env : Env) (allowedOrigin : String) (resp : Upstream) (data : Json)
    (hid : monitorId ≠ "") (hmiss : cache (cacheKeyOf rt monitorId) = none)
    (hkey : truthyStr env.HT_API_KEY = true)
    (hfetch : w.fetch (apiUrlOf rt env monitorId) (authorizationOf env) = .ok resp)
    (h2xx : resp.ok = true) (hjson : resp.json = .ok data) (hdata : data ≠ .null)
    (habsent : firstRecord data = none ∨
      ∃ m, firstRecord data = some m ∧ getProp m "locations" = none) :
    (handleGetStatus rt w cache (some monitorId) env allowedOrigin).response =
      jsonResponse rt (.message notFoundMessage) 404 allowedOrigin ∧
    (handleGetStatus rt w cache (some monitorId) env allowedOrigin).response =
      .ok ⟨404, some (rt.stringify (.message notFoundMessage)), jsonHeaders allowedOrigin⟩ := by
  have htry : tryGetStatus rt w cache monitorId (cacheKeyOf rt monitorId) env allowedOrigin =
      ⟨jsonResponse rt (.message notFoundMessage) 404 allowedOrigin, cache,
       [Event.cacheMatch (cacheKeyOf rt monitorId)] ++
         [Event.upstreamFetch (apiUrlOf rt env monitorId) (authorizationOf env)] ++
         [Event.readJson]⟩ := by
    simp [tryGetStatus, hkey, hfetch, h2xx, hjson, filterMonitor_not_found rt data hdata habsent]
  rw [handleGetStatus_miss rt w cache monitorId env allowedOrigin hid hmiss, htry,
    jsonResponse_not_found]
  exact ⟨rfl, rfl⟩

theorem handleGetStatus_not_found_witness :
    (handleGetStatus sampleRuntime
        (worldOf (.ok ⟨200, .ok (.obj [("monitors", .arr [.obj [("uptime", .num 99)]])])⟩))
        emptyCache (some "m1") sampleEnv "*").response =
      .ok ⟨404, some (sampleRuntime.stringify (.message notFoundMessage)), jsonHeaders "*"⟩ :=
  (handleGetStatus_not_found sampleRuntime
     (worldOf (.ok ⟨200, .ok (.obj [("monitors", .arr [.obj [("uptime", .num 99)]])])⟩))
     emptyCache "m1" sampleEnv "*"
     ⟨200, .ok (.obj [("monitors", .arr [.obj [("uptime", .num 99)]])])⟩
     (.obj [("monitors", .arr [.obj [("uptime", .num 99)]])])
     (by decide) rfl rfl rfl rfl rfl (by simp)
     (Or.inr ⟨.obj [("uptime", .num 99)], rfl, rfl⟩)).2

/-- C7 as stated fails: a 2xx upstream response whose body parses to
`null` has no first monitor record, yet the answer is the failure
response 500, not 404. -/
theorem handleGetStatus_null_body :
    firstRecord Json.null = none ∧
    (handleGetStatus sampleRuntime (worldOf (.ok ⟨200, .ok .null⟩)) emptyCache (some "m1")
        sampleEnv "*").response =
      .ok ⟨500, some (sampleRuntime.stringify (.message failureMessage)), jsonHeaders "*"⟩ ∧
    (handleGetStatus sampleRuntime (worldOf (.ok ⟨200, .ok .null⟩)) emptyCache (some "m1")
        sampleEnv "*").response ≠
      .ok ⟨404, some (sampleRuntime.stringify (.message notFoundMessage)), jsonHeaders "*"⟩ := by
  have h : (handleGetStatus sampleRuntime (worldOf (.ok ⟨200, .ok .null⟩)) emptyCache (some "m1")
        sampleEnv "*").response =
      .ok ⟨500, some (sampleRuntime.stringify (.message failureMessage)), jsonHeaders "*"⟩ := rfl
  refine ⟨rfl, h, ?_⟩
  rw [h]
  intro hc
  have hs := congrArg (fun r => r.toOption.map Response.status) hc
  simp [Except.toOption] at hs

/-- C9: a missing or empty `monitor` parameter is answered with status
400 and the guidance message, with no effect performed (no cache lookup,
no upstream fetch) and the cache unchanged. -/
theorem handleGetStatus_missing_monitor (rt : Runtime) (w : World) (cache : Cache)
    (monitor : Option String) (env : Env) (allowedOrigin : String)
    (h : monitor = none ∨ monitor = some "") :
    (handleGetStatus rt w cache monitor env allowedOrigin).response =
      .ok ⟨400, some (rt.stringify (.message missingMonitorMessage)),
        jsonHeaders allowedOrigin⟩ ∧
    (handleGetStatus rt w cache monitor env allowedOrigin).trace = [] ∧
    (handleGetStatus rt w cache monitor env allowedOrigin).cache = cache := by
  have hj : jsonResponse rt (.message missingMonitorMessage) 400 allowedOrigin =
      .ok ⟨400, some (rt.stringify (.message missingMonitorMessage)),
        jsonHeaders allowedOrigin⟩ := rfl
  rcases h with h | h <;> simp [handleGetStatus, truthyStr, h, hj]

theorem handleGetStatus_missing_monitor_witness :
    (handleGetStatus sampleRuntime (worldOf (.error "unreachable")) emptyCache none
        sampleEnv "*").response =
      .ok ⟨400, some (sampleRuntime.stringify (.message missingMonitorMessage)),
        jsonHeaders "*"⟩ ∧
    (handleGetStatus sampleRuntime (worldOf (.error "unreachable")) emptyCache (some "")
        sampleEnv "*").trace = [] :=
  ⟨(handleGetStatus_missing_monitor sampleRuntime (worldOf (.error "unreachable")) emptyCache none
      sampleEnv "*" (Or.inl rfl)).1,
   (handleGetStatus_missing_monitor sampleRuntime (worldOf (.error "unreachable")) emptyCache
      (some "") sampleEnv "*" (Or.inr rfl)).2.1⟩

/-- C8: on the miss path, every exception thrown inside the `try` block
is answered with status 500 and one fixed body, the same for every error
(the error itself is only logged). With a configured API key this is what
happens when the upstream fetch, the reading of the JSON body, the
transformation of the parsed body, or the cache write raises. -/
theorem handleGetStatus_exception (rt : Runtime) (w : World) (cache : Cache)
    (monitorId : String) (env : Env) (allowedOrigin : String)
    (hid : monitorId ≠ "") (hmiss : cache (cacheKeyOf rt monitorId) = none) :
    (∀ e, (tryGetStatus rt w cache monitorId (cacheKeyOf rt monitorId) env allowedOrigin).response
        = .error e →
      (handleGetStatus rt w cache (some monitorId) env allowedOrigin).response =
        .ok ⟨500, some (rt.stringify (.message failureMessage)), jsonHeaders allowedOrigin⟩ ∧
      (handleGetStatus rt w cache (some monitorId) env allowedOrigin).trace =
        (tryGetStatus rt w cache monitorId (cacheKeyOf rt monitorId) env allowedOrigin).trace
          ++ [Event.consoleError e]) ∧
    (truthyStr env.HT_API_KEY = true →
      (∀ e, w.fetch (apiUrlOf rt env monitorId) (authorizationOf env) = .error e →
        (handleGetStatus rt w cache (some monitorId) env allowedOrigin).response =
          .ok ⟨500, some (rt.stringify (.message failureMessage)), jsonHeaders allowedOrigin⟩) ∧
      (∀ resp e, w.fetch (apiUrlOf rt env monitorId) (authorizationOf env) = .ok resp →
        resp.ok = true → resp.json = .error e →
        (handleGetStatus rt w cache (some monitorId) env allowedOrigin).response =
          .ok ⟨500, some (rt.stringify (.message failureMessage)), jsonHeaders allowedOrigin⟩) ∧
      (∀ resp data e, w.fetch (apiUrlOf rt env monitorId) (authorizationOf env) = .ok resp →
        resp.ok = true → resp.json = .ok data → filterMonitor rt data = .error e →
        (handleGetStatus rt w cache (some monitorId) env allowedOrigin).response =
          .ok ⟨500, some (rt.stringify (.message failureMessage)), jsonHeaders allowedOrigin⟩) ∧
      (∀ resp data filteredData e,
        w.fetch (apiUrlOf rt env monitorId) (authorizationOf env) = .ok resp →
        resp.ok = true → resp.json = .ok data →
        filterMonitor rt data = .ok (some filteredData) →
        w.putError (cacheKeyOf rt monitorId) (cacheableResponse (rt.stringify filteredData))
          = some e →
        (handleGetStatus rt w cache (some monitorId) env allowedOrigin).response =
          .ok ⟨500, some (rt.stringify (.message failureMessage)),
            jsonHeaders allowedOrigin⟩)) := by
  rw [handleGetStatus_miss rt w cache monitorId env allowedOrigin hid hmiss]
  have hcatch : ∀ e, (tryGetStatus rt w cache monitorId (cacheKeyOf rt monitorId) env
        allowedOrigin).response = .error e →
      (catchFailure rt allowedOrigin
        (tryGetStatus rt w cache monitorId (cacheKeyOf rt monitorId) env allowedOrigin)).response =
        .ok ⟨500, some (rt.stringify (.message failureMessage)), jsonHeaders allowedOrigin⟩ ∧
      (catchFailure rt allowedOrigin
        (tryGetStatus rt w cache monitorId (cacheKeyOf rt monitorId) env allowedOrigin)).trace =
        (tryGetStatus rt w cache monitorId (cacheKeyOf rt monitorId) env allowedOrigin).trace
          ++ [Event.consoleError e] := by
    intro e h
    unfold catchFailure
    rw [h]
    exact ⟨rfl, rfl⟩
  refine ⟨hcatch, fun hkey => ⟨?_, ?_, ?_, ?_⟩⟩
  · intro e hfetch
    exact (hcatch e (by simp [tryGetStatus, hkey, hfetch])).1
  · intro resp e hfetch h2xx hjson
    exact (hcatch e (by simp [tryGetStatus, hkey, hfetch, h2xx, hjson])).1
  · intro resp data e hfetch h2xx hjson hfilter
    exact (hcatch e (by simp [tryGetStatus, hkey, hfetch, h2xx, hjson, hfilter])).1
  · intro resp data filteredData e hfetch h2xx hjson hfilter hput
    exact (hcatch e (by
      simp [tryGetStatus, hkey, hfetch, h2xx, hjson, hfilter, newResponse_cacheable, hput])).1

theorem sumResponseTimes_numeric (rt : Runtime) (vs : List Json) :
    ∀ (rts : List ℚ) (a : JsNum), vs.map responseTimeOf = rts.map some →
      sumResponseTimes rt (.num a) vs =
        .ok (.num (rts.foldl (fun sum q => sum.add (JsNum.ofRat q)) a)) := by
  induction vs with
  | nil =>
    intro rts a h
    cases rts with
    | nil => simp [sumResponseTimes]
    | cons q rest => simp at h
  | cons v vs ih =>
    intro rts a h
    cases rts with
    | nil => simp at h
    | cons q rest =>
      simp only [List.map_cons, List.cons.injEq] at h
      obtain ⟨hv, hrest⟩ := h
      cases v with
      | obj kvs =>
        simp only [sumResponseTimes]
        have hp : getProp (Json.obj kvs) "response_time" = some (.num q) := by
          unfold responseTimeOf at hv
          split at hv
          · next q2 hq => simp at hv; rw [hq, hv]
          · simp at hv
        rw [hp]
        simp only [jsAdd]
        rw [ih rest _ hrest]
        rfl
      | null => simp [responseTimeOf, getProp] at hv
      | bool b => simp [responseTimeOf, getProp] at hv
      | num n => simp [responseTimeOf, getProp] at hv
      | str s => simp [responseTimeOf, getProp] at hv
      | arr xs => simp [responseTimeOf, getProp] at hv

theorem filterMonitor_average (rt : Runtime) (data m : Json) (kvs : List (String × Json))
    (rts : List ℚ) (hrec : firstRecord data = some m)
    (hloc : getProp m "locations" = some (.obj kvs))
    (hnum : kvs.map (fun kv => responseTimeOf kv.2) = rts.map some) :
    filterMonitor rt data =
      .ok (some (.status (getProp m "uptime")
        (if kvs.length = 0 then JsNum.fin 0 else (doubleSum rts).divNat kvs.length)
        (serverLocationOf rt m))) := by
  have hdata : data ≠ .null := by
    rintro rfl
    simp [firstRecord, getProp] at hrec
  have hm : truthy (some m) = true := by
    cases m <;> simp [getProp] at hloc
    rfl
  have hl : truthy (some (Json.obj kvs)) = true := rfl
  have hsum : sumResponseTimes rt (.num (.fin 0)) (kvs.map Prod.snd) =
      .ok (.num (doubleSum rts)) := by
    apply sumResponseTimes_numeric
    rw [List.map_map]
    exact hnum
  unfold filterMonitor
  rw [firstMonitor_eq_firstRecord data hdata, hrec]
  simp only [hm, hloc, hl, Bool.and_self, if_true, objectValues, hsum, List.length_map]
  by_cases hk : kvs.length = 0
  · simp [hk]
  · have : kvs.length > 0 := Nat.pos_of_ne_zero hk
    simp [hk, this, jsDiv]

theorem handleGetStatus_stored (rt : Runtime) (w : World) (cache : Cache)
    (monitorId : String) (env : Env) (allowedOrigin : String) (resp : Upstream) (data : Json)
    (filteredData : Payload)
    (hid : monitorId ≠ "") (hmiss : cache (cacheKeyOf rt monitorId) = none)
    (hkey : truthyStr env.HT_API_KEY = true)
    (hfetch : w.fetch (apiUrlOf rt env monitorId) (authorizationOf env) = .ok resp)
    (h2xx : resp.ok = true) (hjson : resp.json = .ok data)
    (hfilter : filterMonitor rt data = .ok (some filteredData))
    (hput : w.putError (cacheKeyOf rt monitorId) (cacheableResponse (rt.stringify filteredData))
      = none) :
    (handleGetStatus rt w cache (some monitorId) env allowedOrigin).response =
      .ok ⟨200, some (rt.stringify filteredData), statusHeaders allowedOrigin "MISS"⟩ ∧
    (handleGetStatus rt w cache (some monitorId) env allowedOrigin).cache =
      cache.put (cacheKeyOf rt monitorId) (cacheableResponse (rt.stringify filteredData)) := by
  have htry : tryGetStatus rt w cache monitorId (cacheKeyOf rt monitorId) env allowedOrigin =
      ⟨.ok ⟨200, some (rt.stringify filteredData), statusHeaders allowedOrigin "MISS"⟩,
       cache.put (cacheKeyOf rt monitorId) (cacheableResponse (rt.stringify filteredData)),
       [Event.cacheMatch (cacheKeyOf rt monitorId)] ++
         [Event.upstreamFetch (apiUrlOf rt env monitorId) (authorizationOf env)] ++
         [Event.readJson] ++
         [Event.cachePut (cacheKeyOf rt monitorId)
           (cacheableResponse (rt.stringify filteredData))]⟩ := by
    simp [tryGetStatus, hkey, hfetch, h2xx, hjson, hfilter, newResponse_cacheable, hput,
      newResponse_miss]
  rw [handleGetStatus_miss rt w cache monitorId env allowedOrigin hid hmiss, htry]
  exact ⟨rfl, rfl⟩

theorem sample_mean :
    (if [("a", Json.obj [("response_time", Json.num 100)]),
         ("b", Json.obj [("response_time", Json.num 200)])].length = 0 then JsNum.fin 0
     else (doubleSum [100, 200]).divNat
       [("a", Json.obj [("response_time", Json.num 100)]),
        ("b", Json.obj [("response_time", Json.num 200)])].length) = JsNum.fin 150 := by
  decide!

theorem filterMonitor_sample :
    filterMonitor sampleRuntime sampleData =
      .ok (some (.status (some (.num 99)) (.fin 150) "Lokasi tidak diketahui")) := by
  have h := filterMonitor_average sampleRuntime sampleData sampleMonitor
    [("a", .obj [("response_time", .num 100)]), ("b", .obj [("response_time", .num 200)])]
    [100, 200] rfl rfl rfl
  rw [sample_mean] at h
  exact h

theorem sample_first_request :
    (handleGetStatus sampleRuntime (worldOf (.ok ⟨200, .ok sampleData⟩)) emptyCache (some "m1")
        sampleEnv "*").response =
      .ok ⟨200, some "average_response_time: 150, location: Lokasi tidak diketahui",
        statusHeaders "*" "MISS"⟩ ∧
    (handleGetStatus sampleRuntime (worldOf (.ok ⟨200, .ok sampleData⟩)) emptyCache (some "m1")
        sampleEnv "*").cache =
      emptyCache.put (cacheKeyOf sampleRuntime "m1")
        (cacheableResponse "average_response_time: 150, location: Lokasi tidak diketahui") := by
  have hs : sampleRuntime.stringify
      (.status (some (.num 99)) (.fin 150) "Lokasi tidak diketahui") =
      "average_response_time: 150, location: Lokasi tidak diketahui" := by decide!
  have h := handleGetStatus_stored sampleRuntime (worldOf (.ok ⟨200, .ok sampleData⟩)) emptyCache
    "m1" sampleEnv "*" ⟨200, .ok sampleData⟩ sampleData _ (by decide) rfl rfl rfl rfl rfl
    filterMonitor_sample rfl
  rw [hs] at h
  exact h

theorem handleGetStatus_exception_witness :
    (handleGetStatus sampleRuntime (worldOf (.error "network down")) emptyCache (some "m1")
        sampleEnv "*").response =
      .ok ⟨500, some (sampleRuntime.stringify (.message failureMessage)), jsonHeaders "*"⟩ ∧
    (handleGetStatus sampleRuntime (worldOf (.ok ⟨200, .error "Unexpected token"⟩)) emptyCache
        (some "m1") sampleEnv "*").response =
      .ok ⟨500, some (sampleRuntime.stringify (.message failureMessage)), jsonHeaders "*"⟩ ∧
    (handleGetStatus sampleRuntime (worldOf (.ok ⟨200, .ok .null⟩)) emptyCache
        (some "m1") sampleEnv "*").response =
      .ok ⟨500, some (sampleRuntime.stringify (.message failureMessage)), jsonHeaders "*"⟩ ∧
    (handleGetStatus sampleRuntime (worldPutFails ⟨200, .ok sampleData⟩ "cache down") emptyCache
        (some "m1") sampleEnv "*").response =
      .ok ⟨500, some (sampleRuntime.stringify (.message failureMessage)), jsonHeaders "*"⟩ :=
  ⟨((handleGetStatus_exception sampleRuntime (worldOf (.error "network down")) emptyCache "m1"
      sampleEnv "*" (by decide) rfl).2 rfl).1 "network down" rfl,
   ((handleGetStatus_exception sampleRuntime (worldOf (.ok ⟨200, .error "Unexpected token"⟩))
      emptyCache "m1" sampleEnv "*" (by decide) rfl).2 rfl).2.1
      ⟨200, .error "Unexpected token"⟩ "Unexpected token" rfl rfl rfl,
   ((handleGetStatus_exception sampleRuntime (worldOf (.ok ⟨200, .ok .null⟩))
      emptyCache "m1" sampleEnv "*" (by decide) rfl).2 rfl).2.2.1
      ⟨200, .ok .null⟩ .null typeError rfl rfl rfl rfl,
   ((handleGetStatus_exception sampleRuntime (worldPutFails ⟨200, .ok sampleData⟩ "cache down")
      emptyCache "m1" sampleEnv "*" (by decide) rfl).2 rfl).2.2.2
      ⟨200, .ok sampleData⟩ sampleData
      (.status (some (.num 99)) (.fin 150) "Lokasi tidak diketahui")
      "cache down" rfl rfl rfl filterMonitor_sample rfl⟩

theorem jsonResponse_xcache (rt : Runtime) (data : Payload) (status : Nat) (origin : String)
    (r : Response) (h : jsonResponse rt data status origin = .ok r) :
    r.header "X-Cache" = none := by
  unfold jsonResponse newResponse at h
  split at h
  · cases h
  · split at h
    · cases h
    · cases h
      simp [Response.header, jsonHeaders, List.lookup]

theorem tryGetStatus_cache (rt : Runtime) (w : World) (cache : Cache) (monitorId cacheKey : String)
    (env : Env) (allowedOrigin : String) :
    ((tryGetStatus rt w cache monitorId cacheKey env allowedOrigin).cache = cache ∧
      ∀ r, (tryGetStatus rt w cache monitorId cacheKey env allowedOrigin).response = .ok r →
        r.header "X-Cache" = none) ∨
    ∃ body,
      (tryGetStatus rt w cache monitorId cacheKey env allowedOrigin).response =
        .ok ⟨200, some body, statusHeaders allowedOrigin "MISS"⟩ ∧
      (tryGetStatus rt w cache monitorId cacheKey env allowedOrigin).cache =
        cache.put cacheKey (cacheableResponse body) := by
  unfold tryGetStatus
  simp only [newResponse_cacheable, newResponse_miss]
  split
  · exact Or.inl ⟨rfl, fun r h => by dsimp only at h; exact jsonResponse_xcache _ _ _ _ r h⟩
  · split
    · exact Or.inl ⟨rfl, fun r h => by cases h⟩
    · split
      · exact Or.inl ⟨rfl, fun r h => by dsimp only at h; exact jsonResponse_xcache _ _ _ _ r h⟩
      · split
        · exact Or.inl ⟨rfl, fun r h => by cases h⟩
        · split
          · exact Or.inl ⟨rfl, fun r h => by cases h⟩
          · exact Or.inl ⟨rfl, fun r h => by dsimp only at h; exact jsonResponse_xcache _ _ _ _ r h⟩
          · split
            · exact Or.inl ⟨rfl, fun r h => by cases h⟩
            · exact Or.inr ⟨_, rfl, rfl⟩

theorem catchFailure_cache (rt : Runtime) (allowedOrigin : String) (attempt : Outcome) :
    (catchFailure rt allowedOrigin attempt).cache = attempt.cache := by
  unfold catchFailure
  split <;> rfl

theorem catchFailure_ok (rt : Runtime) (allowedOrigin : String) (attempt : Outcome)
    (r : Response) (h : attempt.response = .ok r) :
    catchFailure rt allowedOrigin attempt = attempt := by
  unfold catchFailure
  rw [h]

theorem catchFailure_xcache (rt : Runtime) (allowedOrigin : String) (attempt : Outcome)
    (hx : ∀ r, attempt.response = .ok r → r.header "X-Cache" = none) :
    ∀ r, (catchFailure rt allowedOrigin attempt).response = .ok r → r.header "X-Cache" = none := by
  intro r h
  unfold catchFailure at h
  split at h
  · next r2 h2 => exact hx r h
  · dsimp only at h; exact jsonResponse_xcache _ _ _ _ r h

/-- C10: the handler changes the cache only when it answers 200 with
`X-Cache: MISS`; it then stores, under the cache key of the monitor, an
entry whose body is the body it returns. On every other outcome the
cache is left as it was. -/
theorem handleGetStatus_cache_write (rt : Runtime) (w : World) (cache : Cache)
    (monitor : Option String) (env : Env) (allowedOrigin : String) :
    (∀ r, (handleGetStatus rt w cache monitor env allowedOrigin).response = .ok r →
      r.status = 200 → r.header "X-Cache" = some "MISS" →
      ∃ stored : Response,
        (handleGetStatus rt w cache monitor env allowedOrigin).cache
          = cache.put (cacheKeyOf rt (templ monitor)) stored ∧
        (handleGetStatus rt w cache monitor env allowedOrigin).cache (cacheKeyOf rt (templ monitor))
          = some stored ∧
        stored.body = r.body) ∧
    ((¬ ∃ r, (handleGetStatus rt w cache monitor env allowedOrigin).response = .ok r ∧
        r.status = 200 ∧ r.header "X-Cache" = some "MISS") →
      (handleGetStatus rt w cache monitor env allowedOrigin).cache = cache) := by
  unfold handleGetStatus
  split
  · refine ⟨fun r h _ hx => ?_, fun _ => rfl⟩
    dsimp only at h
    rw [jsonResponse_xcache _ _ _ _ r h] at hx
    cases hx
  · dsimp only
    split
    · refine ⟨fun r h _ hx => ?_, fun _ => rfl⟩
      dsimp only at h
      unfold newResponse at h
      split at h
      · cases h
      · split at h
        · cases h
        · cases h
          simp [Response.header, statusHeaders, List.lookup] at hx
    · rcases tryGetStatus_cache rt w cache (templ monitor) (cacheKeyOf rt (templ monitor)) env
        allowedOrigin with ⟨hc, hx⟩ | ⟨body, hr, hc⟩
      · refine ⟨fun r h _ hm => ?_, fun _ => ?_⟩
        · rw [catchFailure_xcache rt allowedOrigin _ hx r h] at hm
          cases hm
        · rw [catchFailure_cache, hc]
      · rw [catchFailure_ok rt allowedOrigin _ _ hr]
        refine ⟨fun r h _ _ => ⟨cacheableResponse body, hc, ?_, ?_⟩, fun h => ?_⟩
        · rw [hc]; simp [Cache.put]
        · rw [hr] at h
          cases h
          rfl
        · exact absurd ⟨_, hr, rfl, by simp [Response.header, statusHeaders, List.lookup]⟩ h

theorem handleGetStatus_cache_write_witness :
    ∃ stored : Response,
      (handleGetStatus sampleRuntime (worldOf (.ok ⟨200, .ok sampleData⟩)) emptyCache (some "m1")
          sampleEnv "*").cache
        = emptyCache.put (cacheKeyOf sampleRuntime (templ (some "m1"))) stored ∧
      (handleGetStatus sampleRuntime (worldOf (.ok ⟨200, .ok sampleData⟩)) emptyCache (some "m1")
          sampleEnv "*").cache (cacheKeyOf sampleRuntime (templ (some "m1"))) = some stored ∧
      stored.body = some "average_response_time: 150, location: Lokasi tidak diketahui" :=
  (handleGetStatus_cache_write sampleRuntime (worldOf (.ok ⟨200, .ok sampleData⟩)) emptyCache
    (some "m1") sampleEnv "*").1
    ⟨200, some "average_response_time: 150, location: Lokasi tidak diketahui",
      statusHeaders "*" "MISS"⟩ sample_first_request.1 rfl rfl

/-- C5 (amended): when the first monitor record has a `locations` mapping
whose values all carry a numeric `response_time`, the 200 response (cache
miss, API key configured, 2xx upstream, cache write accepted) carries as
`average_response_time` the sum of those response times divided by the
number of values, both computed in double arithmetic as `doubleSum` and
`JsNum.divNat` do, and 0 when the mapping is empty. -/
theorem handleGetStatus_average (rt : Runtime) (w : World) (cache : Cache)
    (monitorId : String) (env : Env) (allowedOrigin : String) (resp : Upstream) (data m : Json)
    (kvs : List (String × Json)) (rts : List ℚ)
    (hid : monitorId ≠ "") (hmiss : cache (cacheKeyOf rt monitorId) = none)
    (hkey : truthyStr env.HT_API_KEY = true)
    (hfetch : w.fetch (apiUrlOf rt env monitorId) (authorizationOf env) = .ok resp)
    (h2xx : resp.ok = true) (hjson : resp.json = .ok data)
    (hput : ∀ stored, w.putError (cacheKeyOf rt monitorId) stored = none)
    (hrec : firstRecord data = some m)
    (hloc : getProp m "locations" = some (.obj kvs))
    (hnum : kvs.map (fun kv => responseTimeOf kv.2) = rts.map some) :
    filterMonitor rt data =
      .ok (some (.status (getProp m "uptime")
        (if kvs.length = 0 then JsNum.fin 0 else (doubleSum rts).divNat kvs.length)
        (serverLocationOf rt m))) ∧
    (handleGetStatus rt w cache (some monitorId) env allowedOrigin).response =
      .ok ⟨200,
        some (rt.stringify (.status (getProp m "uptime")
          (if kvs.length = 0 then JsNum.fin 0 else (doubleSum rts).divNat kvs.length)
          (serverLocationOf rt m))),
        statusHeaders allowedOrigin "MISS"⟩ := by
  have hf := filterMonitor_average rt data m kvs rts hrec hloc hnum
  exact ⟨hf, (handleGetStatus_stored rt w cache monitorId env allowedOrigin resp data _ hid hmiss
    hkey hfetch h2xx hjson hf (hput _)).1⟩

theorem handleGetStatus_average_witness :
    filterMonitor sampleRuntime sampleData =
      .ok (some (.status (some (.num 99)) (JsNum.fin 150) "Lokasi tidak diketahui")) ∧
    (handleGetStatus sampleRuntime (worldOf (.ok ⟨200, .ok sampleData⟩)) emptyCache (some "m1")
        sampleEnv "*").response =
      .ok ⟨200,
        some (sampleRuntime.stringify
          (.status (some (.num 99)) (JsNum.fin 150) "Lokasi tidak diketahui")),
        statusHeaders "*" "MISS"⟩ := by
  have h := handleGetStatus_average sampleRuntime (worldOf (.ok ⟨200, .ok sampleData⟩)) emptyCache
    "m1" sampleEnv "*" ⟨200, .ok sampleData⟩ sampleData sampleMonitor
    [("a", .obj [("response_time", .num 100)]), ("b", .obj [("response_time", .num 200)])]
    [100, 200] (by decide) rfl rfl rfl rfl rfl (fun _ => rfl) rfl rfl rfl
  rw [sample_mean] at h
  exact h

theorem add_nan (a : JsNum) : a.add .nan = .nan := by
  cases a <;> rfl

theorem filterMonitor_partial :
    filterMonitor sampleRuntime partialData =
      .ok (some (.status (some (.num 99)) JsNum.nan "Lokasi tidak diketahui")) := by
  have hsum : sumResponseTimes sampleRuntime (.num (.fin 0))
      [Json.obj [("response_time", Json.num 100)], Json.obj []] = .ok (.num .nan) := by
    simp [sumResponseTimes, jsAdd, getProp, List.lookup, add_nan]
  have hfirst : firstMonitor partialData = .ok (some partialMonitor) := rfl
  have hloc : getProp partialMonitor "locations" =
      some (.obj [("a", .obj [("response_time", .num 100)]), ("b", .obj [])]) := rfl
  have hm : truthy (some partialMonitor) = true := rfl
  have hl : truthy (some (Json.obj [("a", .obj [("response_time", .num 100)]), ("b", .obj [])]))
      = true := rfl
  unfold filterMonitor
  rw [hfirst]
  simp only [hm, hloc, hl, Bool.and_self, if_true, objectValues, List.map, hsum]
  rfl

theorem fraction_mean :
    (if [("a", Json.obj [("response_time", Json.num (1 / 10))]),
         ("b", Json.obj [("response_time", Json.num (2 / 10))])].length = 0 then JsNum.fin 0
     else (doubleSum [1 / 10, 2 / 10]).divNat
       [("a", Json.obj [("response_time", Json.num (1 / 10))]),
        ("b", Json.obj [("response_time", Json.num (2 / 10))])].length)
      = JsNum.fin (1351079888211149 / 9007199254740992) := by
  decide!

theorem filterMonitor_fraction :
    filterMonitor sampleRuntime fractionData =
      .ok (some (.status none (JsNum.fin (1351079888211149 / 9007199254740992))
        "Lokasi tidak diketahui")) := by
  have h := filterMonitor_average sampleRuntime fractionData fractionMonitor
    [("a", .obj [("response_time", .num (1 / 10))]), ("b", .obj [("response_time", .num (2 / 10))])]
    [1 / 10, 2 / 10] rfl rfl rfl
  rw [fraction_mean] at h
  exact h

/-- C5 as stated fails. When a value of the mapping has no `response_time`
(here 100 and a value without the field) the average is `NaN`, not the
sum of the fields over the number of values. And the division is of
doubles: for 0.1 and 0.2 the average is 0.15000000000000002, which is not
the double nearest to 0.15. -/
theorem handleGetStatus_average_not_mean :
    (handleGetStatus sampleRuntime (worldOf (.ok ⟨200, .ok partialData⟩)) emptyCache (some "m1")
        sampleEnv "*").response =
      .ok ⟨200,
        some (sampleRuntime.stringify
          (.status (some (.num 99)) JsNum.nan "Lokasi tidak diketahui")),
        statusHeaders "*" "MISS"⟩ ∧
    JsNum.nan ≠ JsNum.ofRat (100 / 2) ∧
    (handleGetStatus sampleRuntime (worldOf (.ok ⟨200, .ok fractionData⟩)) emptyCache (some "m1")
        sampleEnv "*").response =
      .ok ⟨200,
        some (sampleRuntime.stringify
          (.status none (JsNum.fin (1351079888211149 / 9007199254740992))
            "Lokasi tidak diketahui")),
        statusHeaders "*" "MISS"⟩ ∧
    JsNum.fin (1351079888211149 / 9007199254740992) ≠ JsNum.ofRat ((1 / 10 + 2 / 10) / 2) := by
  refine ⟨?_, by decide!, ?_, by decide!⟩
  · exact (handleGetStatus_stored sampleRuntime (worldOf (.ok ⟨200, .ok partialData⟩)) emptyCache
      "m1" sampleEnv "*" ⟨200, .ok partialData⟩ partialData _ (by decide) rfl rfl rfl rfl rfl
      filterMonitor_partial rfl).1
  · exact (handleGetStatus_stored sampleRuntime (worldOf (.ok ⟨200, .ok fractionData⟩)) emptyCache
      "m1" sampleEnv "*" ⟨200, .ok fractionData⟩ fractionData _ (by decide) rfl rfl rfl rfl rfl
      filterMonitor_fraction rfl).1

theorem handleGetStatus_cache (rt : Runtime) (w : World) (cache : Cache)
    (monitor : Option String) (env : Env) (allowedOrigin : String) :
    (handleGetStatus rt w cache monitor env allowedOrigin).cache = cache ∨
    ∃ key body, (handleGetStatus rt w cache monitor env allowedOrigin).cache
      = cache.put key (cacheableResponse body) := by
  unfold handleGetStatus
  split
  · exact Or.inl rfl
  · dsimp only
    split
    · exact Or.inl rfl
    · rw [catchFailure_cache]
      rcases tryGetStatus_cache rt w cache (templ monitor) (cacheKeyOf rt (templ monitor)) env
        allowedOrigin with ⟨hc, _⟩ | ⟨body, _, hc⟩
      · exact Or.inl hc
      · exact Or.inr ⟨_, body, hc⟩

theorem fetch_cache (rt : Runtime) (w : World) (cache : Cache) (req : Request) (env : Env) :
    (fetch rt w cache req env).cache = cache ∨
    ∃ key body, (fetch rt w cache req env).cache = cache.put key (cacheableResponse body) := by
  unfold fetch
  dsimp only
  split
  · exact Or.inl rfl
  · split
    · exact handleGetStatus_cache rt w cache _ env _
    · exact Or.inl rfl

/-- Every entry of a reachable cache is a response stored by the handler:
status 200 and a body. -/
theorem reachable_entry (rt : Runtime) (cache : Cache) (h : Reachable rt cache) :
    ∀ key entry, cache key = some entry → ∃ body, entry = cacheableResponse body := by
  induction h with
  | empty => intro key entry h; simp at h
  | request w c req env _ ih =>
    intro key entry h
    rcases fetch_cache rt w c req env with hc | ⟨k, body, hc⟩
    · rw [hc] at h; exact ih key entry h
    · rw [hc] at h
      unfold Cache.put at h
      split at h
      · exact ⟨body, by simpa using h.symm⟩
      · exact ih key entry h
  | evict c k _ ih =>
    intro key entry h
    dsimp only at h
    split at h
    · simp at h
    · exact ih key entry h

/-- C6: when the cache (as left by earlier requests) has an entry under
the monitor's cache key, the handler performs no upstream fetch and no
cache write, leaves the cache unchanged, and answers 200 with the cached
body, `X-Cache: HIT` and `Access-Control-Allow-Origin` set to the origin
passed for the current request. -/
theorem handleGetStatus_hit (rt : Runtime) (w : World) (cache : Cache) (monitorId : String)
    (env : Env) (allowedOrigin : String) (cached : Response)
    (hreach : Reachable rt cache) (hid : monitorId ≠ "")
    (hhit : cache (cacheKeyOf rt monitorId) = some cached) :
    (∀ url auth, Event.upstreamFetch url auth ∉
      (handleGetStatus rt w cache (some monitorId) env allowedOrigin).trace) ∧
    (∀ key stored, Event.cachePut key stored ∉
      (handleGetStatus rt w cache (some monitorId) env allowedOrigin).trace) ∧
    (handleGetStatus rt w cache (some monitorId) env allowedOrigin).cache = cache ∧
    (∃ r, (handleGetStatus rt w cache (some monitorId) env allowedOrigin).response = .ok r ∧
      r.status = 200 ∧ r.body = cached.body ∧ r.header "X-Cache" = some "HIT" ∧
      r.header "Access-Control-Allow-Origin" = some allowedOrigin) ∧
    (∀ req : Request, req.method ≠ "OPTIONS" → req.pathname = "/api/get-status" →
      req.monitor = some monitorId →
      ∃ r, (fetch rt w cache req env).response = .ok r ∧
        r.header "Access-Control-Allow-Origin"
          = some (resolveOrigin rt.hostname env.ALLOWED_ORIGIN req.origin)) := by
  obtain ⟨body, rfl⟩ := reachable_entry rt cache hreach _ _ hhit
  have hrun : ∀ origin : String, handleGetStatus rt w cache (some monitorId) env origin =
      ⟨.ok ⟨200, some body, statusHeaders origin "HIT"⟩,
       cache, [Event.cacheMatch (cacheKeyOf rt monitorId)]⟩ := by
    intro origin
    have hn : newResponse (some body) 200 (statusHeaders origin "HIT") =
        .ok ⟨200, some body, statusHeaders origin "HIT"⟩ := rfl
    simp [handleGetStatus, truthyStr, templ, hid, hhit, cacheableResponse, hn]
  have hacao : ∀ origin : String,
      (⟨200, some body, statusHeaders origin "HIT"⟩ : Response).header
        "Access-Control-Allow-Origin" = some origin := by
    intro origin
    simp [Response.header, statusHeaders, List.lookup]
  refine ⟨?_, ?_, ?_, ?_, ?_⟩
  · intro url auth; rw [hrun]; simp
  · intro key stored; rw [hrun]; simp
  · rw [hrun]
  · rw [hrun]
    refine ⟨_, rfl, rfl, rfl, ?_, hacao allowedOrigin⟩
    simp [Response.header, statusHeaders, List.lookup]
  · intro req hm hp hq
    simp only [fetch, hm, hp, hq, if_false, if_true]
    rw [hrun]
    exact ⟨_, rfl, hacao _⟩

theorem warmCache_reachable : Reachable sampleRuntime warmCache :=
  Reachable.request _ _ _ _ Reachable.empty

theorem warmCache_entry :
    warmCache (cacheKeyOf sampleRuntime "m1") =
      some (cacheableResponse "average_response_time: 150, location: Lokasi tidak diketahui") := by
  have h : warmCache = (handleGetStatus sampleRuntime (worldOf (.ok ⟨200, .ok sampleData⟩))
      emptyCache (some "m1") sampleEnv "*").cache := rfl
  rw [h, sample_first_request.2]
  simp [Cache.put]

theorem handleGetStatus_hit_witness :
    warmCache (cacheKeyOf sampleRuntime "m1") =
      some (cacheableResponse "average_response_time: 150, location: Lokasi tidak diketahui") ∧
    ∃ r, (handleGetStatus sampleRuntime (worldOf (.error "offline")) warmCache (some "m1")
        sampleEnv "https://a.example.com").response = .ok r ∧
      r.status = 200 ∧
      r.body = some "average_response_time: 150, location: Lokasi tidak diketahui" ∧
      r.header "X-Cache" = some "HIT" ∧
      r.header "Access-Control-Allow-Origin" = some "https://a.example.com" :=
  ⟨warmCache_entry,
   (handleGetStatus_hit sampleRuntime (worldOf (.error "offline")) warmCache "m1"
      sampleEnv "https://a.example.com"
      (cacheableResponse "average_response_time: 150, location: Lokasi tidak diketahui")
      warmCache_reachable (by decide) warmCache_entry).2.2.2.1⟩

end LandingPage
